import Mathlib

/-!
Shallow embedding of the alert lifecycle and deduplication engine of
`backend/src/services/alert/index.ts` (class `AlertService`), together with
theorems checking the natural-language specification against it.

Conventions of the embedding:
* TypeScript `null`/`undefined` values are `Option.none`.
* Thrown exceptions are modelled with explicit error results; code that both
  mutates an accumulator and may throw is modelled with `StRes`, a result type
  that carries the state reached so far even on failure (matching the fact
  that a JS exception does not roll back mutations already performed).
* External collaborators (the TypeORM repository, `json-source-map`,
  `js-yaml-source-map`, the query-runner store write) are parameters ("oracles"):
  the repository query conditions that the service itself builds are embedded,
  the collaborator internals are not.
-/

namespace MetloAlert

/-- Alert status enum (`Status` in `@common/enums`), the three states used by
the service: `OPEN`, `IGNORED`, `RESOLVED`. -/
inductive Status where
  | OPEN
  | IGNORED
  | RESOLVED
deriving DecidableEq, Repr

/-- Alert type enum (`AlertType` in `@common/enums`), restricted to the
constructors the alert service references. -/
inductive AlertType where
  | NEW_ENDPOINT
  | OPEN_API_SPEC_DIFF
  | PII_DATA_DETECTED
  | QUERY_SENSITIVE_DATA
  | PATH_SENSITIVE_DATA
  | BASIC_AUTHENTICATION_DETECTED
  | UNSECURED_ENDPOINT_DETECTED
deriving DecidableEq, Repr

/-- Data sections of a data field (`DataSection` in `@common/enums`). -/
inductive DataSection where
  | REQUEST_PATH
  | REQUEST_QUERY
  | REQUEST_HEADER
  | REQUEST_BODY
  | RESPONSE_HEADER
  | RESPONSE_BODY
deriving DecidableEq, Repr

/-- Spec file extension enum (`SpecExtension`). -/
inductive SpecExtension where
  | JSON
  | YAML
deriving DecidableEq, Repr

/-- A request header of a trace: `{name, value}`. -/
structure Header where
  name : String
  value : String
deriving DecidableEq, Repr

/-- An API trace record, with the fields the alert service reads.
`requestHeaders` is optional because the code guards it
(`apiTrace?.requestHeaders`). -/
structure ApiTrace where
  host : String
  path : String
  requestHeaders : Option (List Header)
deriving DecidableEq, Repr

/-- An API endpoint record, with the fields the alert service reads. -/
structure ApiEndpointRec where
  uuid : String
  path : String
  host : String
deriving DecidableEq, Repr

/-- A data field record: `{dataSection, dataPath, dataClasses}`.
`dataClasses` is optional because the code guards it
(`if (dataField.dataClasses)`); note an empty array is truthy in JS, so
`some []` enters the branch with zero iterations. -/
structure DataField where
  dataSection : DataSection
  dataPath : String
  dataClasses : Option (List String)
deriving DecidableEq, Repr

/-- The `context` payload stored on an alert: each constructor mirrors one of
the object literals assigned to `newAlert.context` in the source. -/
inductive AlertContext where
  | empty
  | trace (t : ApiTrace)
  | tracePathTokenIdx (t : ApiTrace) (pathTokenIdx : Option Nat)
  | pathPointerTrace (pathPointer : List String) (t : ApiTrace)
  | testedAgainst (tested_against : String) (t : ApiTrace)
deriving DecidableEq, Repr

/-- The `Alert` entity, restricted to the columns the service reads or
writes. Drafts built via `new Alert()` get `status = OPEN` and a null
`resolutionMessage` (entity defaults; the spec states status defaults to
OPEN on creation). -/
structure Alert where
  type : AlertType
  riskScore : Int
  apiEndpointUuid : String
  description : String
  status : Status := Status.OPEN
  resolutionMessage : Option String := none
  context : AlertContext := AlertContext.empty
deriving DecidableEq, Repr

/-! ## updateAlert (AlertLifecycle) -/

/-- The update command enum (`UpdateAlertType` in `@common/enums`). The four
named constructors are the enum members the switch handles; `other` models a
runtime value outside of them, which falls through to the switch's `default`
branch. -/
inductive UpdateAlertType where
  | IGNORE
  | UNIGNORE
  | RESOLVE
  | UNRESOLVE
  | other (s : String)
deriving DecidableEq, Repr

/-- Errors surfaced by `updateAlert`: `Error409Conflict`,
`Error500InternalServer`, and the `TypeError` raised by reading a property of
a `null` lookup result. -/
inductive UpdateErr where
  | conflict (msg : String)
  | internal (msg : String)
  | nullDeref
deriving DecidableEq, Repr

/-- `UpdateAlertParams`: the update command plus an optional resolution
message. -/
structure UpdateAlertParams where
  updateType : UpdateAlertType
  resolutionMessage : Option String := none
deriving DecidableEq, Repr

/-- `updateAlertParams.resolutionMessage?.trim() || null`: optional chaining
then the `||` falsy coalescing (an empty trimmed string becomes null). -/
def trimOrNull (m : Option String) : Option String :=
  match m with
  | none => none
  | some s => let t := s.trim; if t = "" then none else some t

/-- Reading `alert.status` when `alert` may be `null`: a `null` lookup result
raises a `TypeError` (modelled as `UpdateErr.nullDeref`). -/
def readStatus (lookup : Option Alert) : Except UpdateErr Alert :=
  match lookup with
  | none => Except.error UpdateErr.nullDeref
  | some a => Except.ok a

/-- `AlertService.updateAlert`, after the repository lookup: `lookup` is the
result of `findOne({where: {uuid: alertId}})`. The switch runs on
`updateAlertParams.updateType`; each of the four named cases begins by
reading `alert.status` (a null dereference when the lookup found nothing),
while the `default` branch throws `Error500InternalServer` without touching
`alert`. On success the mutated alert is persisted whole; on a thrown error
no update is performed. -/
def updateAlert (lookup : Option Alert) (p : UpdateAlertParams) :
    Except UpdateErr Alert :=
  match p.updateType with
  | UpdateAlertType.IGNORE => do
      let alert ← readStatus lookup
      if alert.status = Status.IGNORED then
        Except.error (UpdateErr.conflict "Alert is already being ignored.")
      else if alert.status = Status.RESOLVED then
        Except.error (UpdateErr.conflict "Alert is resolved and cannot be ignored.")
      else
        Except.ok { alert with status := Status.IGNORED }
  | UpdateAlertType.UNIGNORE => do
      let alert ← readStatus lookup
      if alert.status ≠ Status.IGNORED then
        Except.error (UpdateErr.conflict "Alert is currently not ignored.")
      else
        Except.ok { alert with status := Status.OPEN }
  | UpdateAlertType.RESOLVE => do
      let alert ← readStatus lookup
      if alert.status = Status.RESOLVED then
        Except.error (UpdateErr.conflict "Alert is already resolved.")
      else if alert.status = Status.IGNORED then
        Except.error (UpdateErr.conflict "Alert is ignored and cannot be resolved.")
      else
        Except.ok { alert with
          status := Status.RESOLVED,
          resolutionMessage := trimOrNull p.resolutionMessage }
  | UpdateAlertType.UNRESOLVE => do
      let alert ← readStatus lookup
      if alert.status ≠ Status.RESOLVED then
        Except.error (UpdateErr.conflict "Alert is currently not resolved.")
      else
        Except.ok { alert with status := Status.OPEN }
  | UpdateAlertType.other _ =>
      Except.error (UpdateErr.internal "Unknown update type.")

/-- The data-model invariant of the spec: `resolutionMessage` is non-null
only when `status == RESOLVED`. -/
def resolutionInv (a : Alert) : Prop :=
  a.resolutionMessage ≠ none → a.status = Status.RESOLVED

instance (a : Alert) : Decidable (resolutionInv a) := by
  unfold resolutionInv; infer_instance

/-! ## getAlerts (AlertQueryEngine): ordering -/

/-- Sort direction literal (`"ASC" | "DESC"`). -/
inductive SortDir where
  | ASC
  | DESC
deriving DecidableEq, Repr

/-- The columns named in the `order` option of `getAlerts`. -/
inductive SortField where
  | status
  | riskScore
  | createdAt
deriving DecidableEq, Repr

/-- `orderParams` of `getAlerts`: `{riskScore: alertParams.order}` when the
caller supplied an order, `{riskScore: "DESC"}` otherwise. -/
def orderParams (order : Option SortDir) : List (SortField × SortDir) :=
  match order with
  | some o => [(SortField.riskScore, o)]
  | none => [(SortField.riskScore, SortDir.DESC)]

/-- The `order` object passed to `findAndCount`:
`{ status: "DESC", ...orderParams, createdAt: "DESC" }`. JS object keys keep
insertion order and `orderParams` holds only the `riskScore` key, so the
merged key sequence is `status`, `riskScore`, `createdAt`. -/
def findOrder (order : Option SortDir) : List (SortField × SortDir) :=
  [(SortField.status, SortDir.DESC)] ++ orderParams order
    ++ [(SortField.createdAt, SortDir.DESC)]

/-- A row as returned by the `getAlerts` query, restricted to the sort
columns plus an identity to tell rows apart. -/
structure AlertRow where
  uuid : String
  riskScore : Int
  status : Status
  createdAt : Int
deriving DecidableEq, Repr

/-- Modelled from the spec: the persisted `Status` enum values (the
`@common/enums` file is not under src/). The spec names the states OPEN,
IGNORED, RESOLVED; the database compares the stored enum literals, whose
lexical order is Ignored < Open < Resolved, reflected here as ranks. -/
def statusRank (s : Status) : Int :=
  match s with
  | Status.IGNORED => 0
  | Status.OPEN => 1
  | Status.RESOLVED => 2

/-- Three-way comparison on the integers backing a sort column. -/
def intCmp (a b : Int) : Ordering :=
  if a < b then Ordering.lt else if b < a then Ordering.gt else Ordering.eq

/-- The value of a sort column on a row. -/
def fieldVal (f : SortField) (r : AlertRow) : Int :=
  match f with
  | SortField.status => statusRank r.status
  | SortField.riskScore => r.riskScore
  | SortField.createdAt => r.createdAt

/-- SQL `ORDER BY col dir` comparison for one key: ascending compares the
column values directly, descending compares them flipped (larger first). -/
def cmpField (f : SortField) (d : SortDir) (a b : AlertRow) : Ordering :=
  match d with
  | SortDir.ASC => intCmp (fieldVal f a) (fieldVal f b)
  | SortDir.DESC => intCmp (fieldVal f b) (fieldVal f a)

/-- A direction-adjusted column value: comparing `dirVal` ascending is the
same as comparing the column in direction `d`. -/
def dirVal (f : SortField) (d : SortDir) (r : AlertRow) : Int :=
  match d with
  | SortDir.ASC => fieldVal f r
  | SortDir.DESC => - fieldVal f r

/-- Lexicographic comparison along an `ORDER BY` key list. -/
def keysCmp (ks : List (SortField × SortDir)) (a b : AlertRow) : Ordering :=
  match ks with
  | [] => Ordering.eq
  | (f, d) :: rest =>
    match cmpField f d a b with
    | Ordering.eq => keysCmp rest a b
    | o => o

/-- The row order `getAlerts` requests: lexicographic along `findOrder`. -/
def rowLe (order : Option SortDir) (a b : AlertRow) : Prop :=
  keysCmp (findOrder order) a b ≠ Ordering.gt

instance (order : Option SortDir) : DecidableRel (rowLe order) := fun a b => by
  unfold rowLe; infer_instance

/-- The result ordering of `findAndCount`: the matching rows sorted by the
requested `ORDER BY` keys (modelled with a stable sort). -/
def getAlertsSorted (order : Option SortDir) (rows : List AlertRow) :
    List AlertRow :=
  List.insertionSort (rowLe order) rows

/-! ## The persisted-duplicate query and effect plumbing -/

/-- A storage-layer failure (a rejected repository promise). -/
inductive DbErr where
  | dbFailure (msg : String)
deriving DecidableEq, Repr

/-- The persisted store lookup `existingUnresolvedAlert` performs, as an
oracle: arguments are `apiEndpointUuid`, `type`, `description`; the call may
reject. -/
def DbOracle : Type :=
  String → AlertType → String → Except DbErr (Option Alert)

/-- The condition of `existingUnresolvedAlert`'s `findOneBy`: matching
`apiEndpointUuid`, `type`, `status: Not(RESOLVED)` and `description`. -/
def unresolvedMatch (u : String) (t : AlertType) (d : String) (a : Alert) :
    Bool :=
  a.apiEndpointUuid == u && a.type == t
    && !(a.status == Status.RESOLVED) && a.description == d

/-- `AlertService.existingUnresolvedAlert` over an in-memory model of the
persisted store: `findOneBy` with the conditions of `unresolvedMatch`. -/
def findBy (store : List Alert) (u : String) (t : AlertType) (d : String) :
    Option Alert :=
  store.find? (unresolvedMatch u t d)

/-- A non-failing `DbOracle` backed by a list of persisted alerts. -/
def pureDb (store : List Alert) : DbOracle :=
  fun u t d => Except.ok (findBy store u t d)

/-- Outcome of a stateful, possibly-throwing computation: on failure the
state reached so far is kept (a JS exception does not undo mutations already
performed on the shared accumulator). -/
inductive StRes (ε σ : Type) where
  | ok (s : σ)
  | failed (e : ε) (s : σ)
deriving DecidableEq, Repr

/-- The state carried by a `StRes`, whether it succeeded or failed. -/
def StRes.state {ε σ : Type} : StRes ε σ → σ
  | StRes.ok s => s
  | StRes.failed _ s => s

/-- A `for` loop over `l` whose body `f` threads state `s` and stops at the
first thrown error. -/
def foldSt {ε σ α : Type} (f : σ → α → StRes ε σ) : List α → σ → StRes ε σ
  | [], s => StRes.ok s
  | x :: xs, s =>
    match f s x with
    | StRes.ok s' => foldSt f xs s'
    | StRes.failed e s' => StRes.failed e s'

/-! ## createDataFieldAlerts (AlertFactory: PII / basic-auth findings) -/

/-- JS `String.prototype.toLowerCase`, character by character (the
code points the service compares are ASCII). -/
def strToLower (s : String) : String :=
  String.mk (s.data.map Char.toLower)

/-- JS `String.prototype.includes` on char lists: `pat` occurs as a
contiguous run. -/
def charsInclude (pat : List Char) : List Char → Bool
  | [] => pat.isPrefixOf ([] : List Char)
  | c :: rest => pat.isPrefixOf (c :: rest) || charsInclude pat rest

/-- JS `s.includes(pat)`. -/
def strIncludes (s pat : String) : Bool :=
  charsInclude pat.toList s.toList

/-- The header test of the basic-auth scan:
`header.name.toLowerCase() === "authorization" &&
 header.value.toLowerCase().includes("basic ")`. -/
def isBasicAuthHeader (h : Header) : Bool :=
  strToLower h.name == "authorization"
    && strIncludes (strToLower h.value) "basic "

/-- The fixed description of a basic-auth alert. -/
def basicAuthDescription : String :=
  "Basic Authentication detected in Authorization header."

/-- `AlertService.existingDataFieldAlert`: scans the in-memory batch for an
entry with the same `apiEndpointUuid` and `description` (the type is not
compared); a null batch yields `false`. -/
def existingDataFieldAlert (dataFieldAlerts : Option (List Alert))
    (apiEndpointUuid description : String) : Bool :=
  match dataFieldAlerts with
  | none => false
  | some l =>
    l.any fun a =>
      a.apiEndpointUuid == apiEndpointUuid && a.description == description

/-- Modelled from the spec: `DATA_SECTION_TO_LABEL_MAP` of `@common/maps` is
not under src/; the spec only states that the PII description interpolates a
human label of the data section. -/
def sectionLabel (s : DataSection) : String :=
  match s with
  | DataSection.REQUEST_PATH => "Request Path Parameters"
  | DataSection.REQUEST_QUERY => "Request Query Parameters"
  | DataSection.REQUEST_HEADER => "Request Headers"
  | DataSection.REQUEST_BODY => "Request Body"
  | DataSection.RESPONSE_HEADER => "Response Headers"
  | DataSection.RESPONSE_BODY => "Response Body"

/-- Modelled from the spec: `getPathTokens` of `@common/utils` is not under
src/; per the spec the endpoint path is tokenized into its slash-separated
segments, e.g. `/users/{id}/profile` into `["users", "{id}", "profile"]`. -/
def getPathTokens (path : String) : List String :=
  (path.splitOn "/").filter (fun t => t ≠ "")

/-- One entry of the `alertsToAdd` batch built per data class. -/
structure Candidate where
  description : String
  type : AlertType
  context : AlertContext
deriving DecidableEq, Repr

/-- The generic PII description:
`Sensitive data of type {class} has been detected in field '{path}' of
{label}.`. -/
def piiDescription (dataClass : String) (df : DataField) : String :=
  "Sensitive data of type " ++ dataClass ++ " has been detected in field '"
    ++ df.dataPath ++ "' of " ++ sectionLabel df.dataSection ++ "."

/-- The query-parameter description:
`Query Parameter '{path}' contains sensitive data of type {class}.`. -/
def queryDescription (dataClass : String) (df : DataField) : String :=
  "Query Parameter '" ++ df.dataPath ++ "' contains sensitive data of type "
    ++ dataClass ++ "."

/-- The loop over the endpoint's path tokens (lines 362-369 of the source):
each index whose token equals `{dataPath}` overwrites `pathTokenIdx` and the
description, so the last match wins; with no match the description stays
generic and the index stays null. -/
def pathScanStep (dataPath dataClass : String) (acc : Option Nat × String)
    (p : Nat × String) : Option Nat × String :=
  if p.2 == "\x7b" ++ dataPath ++ "\x7d" then
    (some p.1,
      "Path Parameter at position " ++ toString (p.1 + 1)
        ++ " contains sensitive data of type " ++ dataClass ++ ".")
  else acc

/-- The full token scan: starts from a null index and the generic
description, folding `pathScanStep` over the indexed tokens. -/
def pathParamScan (tokens : List String) (dataPath dataClass : String) :
    Option Nat × String :=
  tokens.enum.foldl (pathScanStep dataPath dataClass)
    (none,
      "Path Parameters contain sensitive data of type " ++ dataClass ++ ".")

/-- The `alertsToAdd` batch for one data field and one data class: the
generic PII candidate always, a query candidate when the field lives in the
query section, a path candidate when it lives in the path section. -/
def candidatesFor (trace : ApiTrace) (endpointPath : String) (df : DataField)
    (dataClass : String) : List Candidate :=
  [⟨piiDescription dataClass df, AlertType.PII_DATA_DETECTED,
      AlertContext.trace trace⟩]
  ++ (if df.dataSection == DataSection.REQUEST_QUERY then
        [⟨queryDescription dataClass df, AlertType.QUERY_SENSITIVE_DATA,
            AlertContext.trace trace⟩]
      else [])
  ++ (if df.dataSection == DataSection.REQUEST_PATH then
        let scan := pathParamScan (getPathTokens endpointPath) df.dataPath
          dataClass
        [⟨scan.2, AlertType.PATH_SENSITIVE_DATA,
            AlertContext.tracePathTokenIdx trace scan.1⟩]
      else [])

/-- An alert draft built from a candidate (`new Alert()` plus the field
assignments in the candidate loop). -/
def mkCandidateAlert (risk : AlertType → Int) (uuid : String) (c : Candidate) :
    Alert :=
  { type := c.type, riskScore := risk c.type, apiEndpointUuid := uuid,
    description := c.description, context := c.context }

/-- The basic-auth alert draft. -/
def mkBasicAuthAlert (risk : AlertType → Int) (uuid : String)
    (trace : ApiTrace) : Alert :=
  { type := AlertType.BASIC_AUTHENTICATION_DETECTED,
    riskScore := risk AlertType.BASIC_AUTHENTICATION_DETECTED,
    apiEndpointUuid := uuid, description := basicAuthDescription,
    context := AlertContext.trace trace }

/-- Processing of one `alertsToAdd` entry: suppressed when the in-memory
batch holds a `(uuid, description)` duplicate (checked first, short-circuiting
the store query) or the persisted store holds an unresolved
`(uuid, type, description)` duplicate; otherwise the draft is appended. -/
def addCandidate (dbo : DbOracle) (risk : AlertType → Int) (uuid : String)
    (alerts : List Alert) (c : Candidate) : StRes DbErr (List Alert) :=
  if existingDataFieldAlert (some alerts) uuid c.description then
    StRes.ok alerts
  else
    match dbo uuid c.type c.description with
    | Except.error e => StRes.failed e alerts
    | Except.ok existing =>
      if existing.isSome then StRes.ok alerts
      else StRes.ok (alerts ++ [mkCandidateAlert risk uuid c])

/-- The basic-auth scan run for a data field in the REQUEST_HEADER section:
the header loop stops at the first matching header (`found` flag); on a
match the same two dedup checks run (in-batch first) before the draft is
appended. -/
def processHeaderField (dbo : DbOracle) (risk : AlertType → Int)
    (uuid : String) (trace : ApiTrace) (alerts : List Alert) :
    StRes DbErr (List Alert) :=
  match trace.requestHeaders with
  | none => StRes.ok alerts
  | some hs =>
    match hs.find? isBasicAuthHeader with
    | none => StRes.ok alerts
    | some _ =>
      if existingDataFieldAlert (some alerts) uuid basicAuthDescription then
        StRes.ok alerts
      else
        match dbo uuid AlertType.BASIC_AUTHENTICATION_DETECTED
            basicAuthDescription with
        | Except.error e => StRes.failed e alerts
        | Except.ok existing =>
          if existing.isSome then StRes.ok alerts
          else StRes.ok (alerts ++ [mkBasicAuthAlert risk uuid trace])

/-- Processing of one data class of a field: its candidates in order. -/
def classStep (dbo : DbOracle) (risk : AlertType → Int) (uuid : String)
    (trace : ApiTrace) (endpointPath : String) (df : DataField)
    (alerts : List Alert) (dataClass : String) : StRes DbErr (List Alert) :=
  foldSt (addCandidate dbo risk uuid)
    (candidatesFor trace endpointPath df dataClass) alerts

/-- Processing of one data field: the basic-auth scan when the field is in
the REQUEST_HEADER section, then the data-class loop when `dataClasses` is
non-null. -/
def processDataField (dbo : DbOracle) (risk : AlertType → Int) (uuid : String)
    (endpointPath : String) (trace : ApiTrace) (alerts : List Alert)
    (df : DataField) : StRes DbErr (List Alert) :=
  match
    (if df.dataSection == DataSection.REQUEST_HEADER then
      processHeaderField dbo risk uuid trace alerts
    else StRes.ok alerts) with
  | StRes.failed e s => StRes.failed e s
  | StRes.ok s =>
    match df.dataClasses with
    | none => StRes.ok s
    | some classes =>
      foldSt (classStep dbo risk uuid trace endpointPath df) classes s

/-- The body of `createDataFieldAlerts`'s `try` block past the null check:
the accumulator starts from the caller-supplied `sensitiveDataAlerts` array
(`sensitiveDataAlerts ?? []`) and each data field is processed in order. -/
def dataFieldInner (dbo : DbOracle) (risk : AlertType → Int)
    (dataFields : List DataField) (uuid endpointPath : String)
    (trace : ApiTrace) (sensitiveDataAlerts : Option (List Alert)) :
    StRes DbErr (List Alert) :=
  foldSt (processDataField dbo risk uuid endpointPath trace) dataFields
    (sensitiveDataAlerts.getD [])

/-- `AlertService.createDataFieldAlerts`: null data fields yield `[]`; any
exception inside the `try` block is caught and yields `[]`; otherwise the
accumulator is returned. -/
def createDataFieldAlerts (dbo : DbOracle) (risk : AlertType → Int)
    (dataFields : Option (List DataField)) (uuid endpointPath : String)
    (trace : ApiTrace) (sensitiveDataAlerts : Option (List Alert)) :
    List Alert :=
  match dataFields with
  | none => []
  | some dfs =>
    match dataFieldInner dbo risk dfs uuid endpointPath trace
        sensitiveDataAlerts with
    | StRes.ok s => s
    | StRes.failed _ _ => []

/-- `createDataFieldAlerts` paired with the final content of the `alerts`
array. The array is the caller's `sensitiveDataAlerts` object itself when one
was supplied (`??` keeps the reference), so the second component is what the
caller's array holds after the call, including drafts pushed before a thrown
exception. -/
def createDataFieldAlertsRun (dbo : DbOracle) (risk : AlertType → Int)
    (dataFields : Option (List DataField)) (uuid endpointPath : String)
    (trace : ApiTrace) (sensitiveDataAlerts : Option (List Alert)) :
    List Alert × List Alert :=
  match dataFields with
  | none => ([], sensitiveDataAlerts.getD [])
  | some dfs =>
    match dataFieldInner dbo risk dfs uuid endpointPath trace
        sensitiveDataAlerts with
    | StRes.ok s => (s, s)
    | StRes.failed _ s => ([], s)

/-! ## createSpecDiffAlerts (AlertFactory + SpecLocator) -/

/-- One cached spec location: `{lineNumber, minimizedSpec}`. -/
structure CacheEntry where
  lineNumber : Int
  minimizedSpec : String
deriving DecidableEq, Repr

/-- The `OpenApiSpec` entity fields the service reads: the raw spec text,
its extension, and the memoized location cache keyed by the joined pointer
path. -/
structure OpenApiSpecRec where
  name : String
  extension : SpecExtension
  spec : String
  minimizedSpecContext : List (String × CacheEntry)
deriving DecidableEq, Repr

/-- A failure of the external spec parsing and lookup
(`jsonMap.parse` / `yaml.load` throwing, or `.line` read on an undefined
YAML lookup result). -/
inductive SpecErr where
  | specFailure (msg : String)
deriving DecidableEq, Repr

/-- The two external source-map libraries as oracles. `jsonLine` stands for
`jsonMap.parse(spec).pointers?.[pathKey]?.key?.line`; `yamlLine` for
`new SourceMap()` fed through `yaml.load` and `map.lookup(pathPointer).line`.
Either may throw. -/
structure SpecLibOracle where
  jsonLine : String → String → Except SpecErr (Option Int)
  yamlLine : String → List String → Except SpecErr (Option Int)

/-- The query-runner update persisting `minimizedSpecContext`; may reject. -/
def StoreOracle : Type :=
  List (String × CacheEntry) → Except DbErr Unit

/-- The JSON pointer key built from the pointer segments: each segment has
`/` escaped to `~1` and is prefixed with `/`. -/
def jsonPathKey (pathPointer : List String) : String :=
  pathPointer.foldl (fun acc tok => acc ++ "/" ++ tok.replace "/" "~1") ""

/-- The two truthiness-guarded line adjustments: JSON `lineNumber += 1`,
YAML `lineNumber -= 1`, each only when the looked-up line is truthy (a zero
line is falsy in JS and is left unadjusted). -/
def adjustLine (ext : SpecExtension) (ln : Option Int) : Option Int :=
  match ext, ln with
  | _, none => none
  | SpecExtension.JSON, some n => if n == 0 then some n else some (n + 1)
  | SpecExtension.YAML, some n => if n == 0 then some n else some (n - 1)

/-- `split(/\r?\n/)`: split on newlines, tolerating a carriage return. -/
def splitLines (s : String) : List String :=
  (s.splitOn "\n").map fun t => if t.endsWith "\r" then t.dropRight 1 else t

/-- JS `Array.prototype.slice(start, stop)` with negative indices counting
from the end. -/
def jsSlice (l : List String) (start stop : Int) : List String :=
  let n : Int := l.length
  let s : Int := if start < 0 then max (n + start) 0 else min start n
  let e : Int := if stop < 0 then max (n + stop) 0 else min stop n
  (l.drop s.toNat).take (e - s).toNat

/-- The minimized snippet: the raw spec's lines from five before to five
after the resolved line, re-joined with newlines. -/
def minimizeSpec (specText : String) (lineNumber : Int) : String :=
  String.intercalate "\n"
    (jsSlice (splitLines specText) (lineNumber - 5) (lineNumber + 5))

/-- The SpecLocator step (lines 442-474 of the source): on a cache hit for
the joined pointer key nothing is parsed and the cache is untouched; on a
miss the spec is parsed (the returned counter is the number of parses
performed) and, when a truthy line results after adjustment, the
`(lineNumber, minimizedSpec)` entry is written; a falsy or missing line
writes nothing. -/
def resolveSpecLocation (lib : SpecLibOracle) (ext : SpecExtension)
    (specText : String) (cache : List (String × CacheEntry))
    (pathPointer : List String) :
    Except SpecErr (List (String × CacheEntry) × Nat) :=
  let minimizedSpecKey := String.intercalate "." pathPointer
  match cache.lookup minimizedSpecKey with
  | some _ => Except.ok (cache, 0)
  | none =>
    let lnRes : Except SpecErr (Option Int) :=
      match ext with
      | SpecExtension.JSON => lib.jsonLine specText (jsonPathKey pathPointer)
      | SpecExtension.YAML => lib.yamlLine specText pathPointer
    match lnRes with
    | Except.error e => Except.error e
    | Except.ok ln =>
      match adjustLine ext ln with
      | some n =>
        if n == 0 then Except.ok (cache, 1)
        else
          Except.ok
            (cache ++ [(minimizedSpecKey, ⟨n, minimizeSpec specText n⟩)], 1)
      | none => Except.ok (cache, 1)

/-- Errors a spec-diff batch can throw: storage failures and spec-parse
failures. -/
inductive SDErr where
  | db (e : DbErr)
  | lib (e : SpecErr)
deriving DecidableEq, Repr

/-- The loop state of `createSpecDiffAlerts`: the alert batch, the (mutating)
`minimizedSpecContext` of the `openApiSpec` object, and the number of spec
parses performed so far. -/
structure SDState where
  alerts : List Alert
  cache : List (String × CacheEntry)
  parses : Nat
deriving DecidableEq, Repr

/-- A spec-diff alert draft for one `alertItems` entry `(key, pathPointer)`:
description is the key, context carries the pointer and the trace. -/
def mkDiffAlert (risk : AlertType → Int) (uuid : String) (trace : ApiTrace)
    (kv : String × List String) : Alert :=
  { type := AlertType.OPEN_API_SPEC_DIFF,
    riskScore := risk AlertType.OPEN_API_SPEC_DIFF,
    apiEndpointUuid := uuid, description := kv.1,
    context := AlertContext.pathPointerTrace kv.2 trace }

/-- One iteration of the `for key in alertItems` loop: the persisted dedup
check; when no unresolved duplicate exists, the location resolution and the
draft push; then (for every key, suppressed or not) the store write of the
current cache. -/
def specDiffStep (dbo : DbOracle) (lib : SpecLibOracle) (store : StoreOracle)
    (risk : AlertType → Int) (uuid : String) (trace : ApiTrace)
    (ext : SpecExtension) (specText : String) (st : SDState)
    (kv : String × List String) : StRes SDErr SDState :=
  match dbo uuid AlertType.OPEN_API_SPEC_DIFF kv.1 with
  | Except.error e => StRes.failed (SDErr.db e) st
  | Except.ok existing =>
    let afterIf : StRes SDErr SDState :=
      if existing.isSome then StRes.ok st
      else
        match resolveSpecLocation lib ext specText st.cache kv.2 with
        | Except.error e => StRes.failed (SDErr.lib e) st
        | Except.ok (cache', dp) =>
          StRes.ok
            ⟨st.alerts ++ [mkDiffAlert risk uuid trace kv], cache',
              st.parses + dp⟩
    match afterIf with
    | StRes.failed e s => StRes.failed e s
    | StRes.ok s =>
      match store s.cache with
      | Except.error e => StRes.failed (SDErr.db e) s
      | Except.ok _ => StRes.ok s

/-- The body of `createSpecDiffAlerts`'s `try` block past the null checks. -/
def specDiffInner (dbo : DbOracle) (lib : SpecLibOracle) (store : StoreOracle)
    (risk : AlertType → Int) (items : List (String × List String))
    (uuid : String) (trace : ApiTrace) (openApiSpec : OpenApiSpecRec) :
    StRes SDErr SDState :=
  foldSt (specDiffStep dbo lib store risk uuid trace openApiSpec.extension
      openApiSpec.spec)
    items ⟨[], openApiSpec.minimizedSpecContext, 0⟩

/-- `AlertService.createSpecDiffAlerts`: null or empty `alertItems` yield
`[]`; any exception inside the `try` block is caught and yields `[]`;
otherwise the batch is returned. The `alertItems` record is modelled as an
association list in key iteration order. -/
def createSpecDiffAlerts (dbo : DbOracle) (lib : SpecLibOracle)
    (store : StoreOracle) (risk : AlertType → Int)
    (alertItems : Option (List (String × List String))) (uuid : String)
    (trace : ApiTrace) (openApiSpec : OpenApiSpecRec) : List Alert :=
  match alertItems with
  | none => []
  | some items =>
    if items.length = 0 then []
    else
      match specDiffInner dbo lib store risk items uuid trace openApiSpec with
      | StRes.ok st => st.alerts
      | StRes.failed _ _ => []

/-! ## createMissingHSTSAlert (AlertFactory: transport-security findings) -/

/-- An unsecured-endpoint alert draft for one `(endpoint, trace, description)`
triple. -/
def mkHstsAlert (risk : AlertType → Int)
    (p : ApiEndpointRec × ApiTrace × String) : Alert :=
  { type := AlertType.UNSECURED_ENDPOINT_DETECTED,
    riskScore := risk AlertType.UNSECURED_ENDPOINT_DETECTED,
    apiEndpointUuid := p.1.uuid, description := p.2.2,
    context := AlertContext.testedAgainst (p.2.1.host ++ "/" ++ p.2.1.path)
      p.2.1 }

/-- One iteration of the `for alertProp of alertProps` loop: only the
persisted dedup check guards the push — the in-memory batch is never
consulted. -/
def hstsStep (dbo : DbOracle) (risk : AlertType → Int) (alerts : List Alert)
    (p : ApiEndpointRec × ApiTrace × String) : StRes DbErr (List Alert) :=
  match dbo p.1.uuid AlertType.UNSECURED_ENDPOINT_DETECTED p.2.2 with
  | Except.error e => StRes.failed e alerts
  | Except.ok existing =>
    if existing.isSome then StRes.ok alerts
    else StRes.ok (alerts ++ [mkHstsAlert risk p])

/-- The body of `createMissingHSTSAlert`'s `try` block past the null check. -/
def hstsInner (dbo : DbOracle) (risk : AlertType → Int)
    (props : List (ApiEndpointRec × ApiTrace × String)) :
    StRes DbErr (List Alert) :=
  foldSt (hstsStep dbo risk) props []

/-- `AlertService.createMissingHSTSAlert`: null props yield `[]`; any
exception inside the `try` block is caught and yields `[]`. -/
def createMissingHSTSAlert (dbo : DbOracle) (risk : AlertType → Int)
    (props : Option (List (ApiEndpointRec × ApiTrace × String))) :
    List Alert :=
  match props with
  | none => []
  | some ps =>
    match hstsInner dbo risk ps with
    | StRes.ok s => s
    | StRes.failed _ _ => []

/-! ## Concrete oracles and helper predicates used by the theorems -/

/-- A non-throwing spec-library oracle built from total lookup functions. -/
def pureLib (j : String → String → Option Int)
    (y : String → List String → Option Int) : SpecLibOracle :=
  ⟨fun specText k => Except.ok (j specText k),
    fun specText pp => Except.ok (y specText pp)⟩

/-- A store write that always succeeds. -/
def storeOk : StoreOracle := fun _ => Except.ok ()

/-- A repository lookup whose promise always rejects. -/
def failingDb : DbOracle := fun _ _ _ => Except.error (DbErr.dbFailure "db down")

/-- A repository lookup that rejects only for QUERY_SENSITIVE_DATA queries
and otherwise finds nothing: it makes a data-field batch fail mid-way,
after a PII draft has already been pushed. -/
def flakyDb : DbOracle := fun _ t _ =>
  if t == AlertType.QUERY_SENSITIVE_DATA then
    Except.error (DbErr.dbFailure "db down")
  else Except.ok none

/-- The entries of a batch that an in-batch basic-auth dedup check would
match: same `apiEndpointUuid` and the fixed basic-auth description. -/
def bdFilter (uuid : String) (l : List Alert) : List Alert :=
  l.filter fun a =>
    a.apiEndpointUuid == uuid && a.description == basicAuthDescription

/-! ## Lifecycle claims -/

/-- C5: `updateAlert` implements the lifecycle table for IGNORE, UNIGNORE,
UNRESOLVE and unrecognized commands exactly: IGNORE succeeds only from OPEN
(to IGNORED) with the two stated conflicts otherwise; UNIGNORE succeeds only
from IGNORED (to OPEN) with the stated conflict otherwise; UNRESOLVE
succeeds only from RESOLVED (to OPEN) with the stated conflict otherwise;
an unrecognized command raises an internal (500) error, not a conflict, for
any lookup result, and no update of the alert is performed. -/
theorem C5_lifecycle_table :
    ∀ (a : Alert) (m : Option String) (s : String) (lookup : Option Alert),
      updateAlert (some { a with status := Status.OPEN })
          ⟨UpdateAlertType.IGNORE, m⟩
        = Except.ok { a with status := Status.IGNORED }
    ∧ updateAlert (some { a with status := Status.IGNORED })
          ⟨UpdateAlertType.IGNORE, m⟩
        = Except.error (UpdateErr.conflict "Alert is already being ignored.")
    ∧ updateAlert (some { a with status := Status.RESOLVED })
          ⟨UpdateAlertType.IGNORE, m⟩
        = Except.error
            (UpdateErr.conflict "Alert is resolved and cannot be ignored.")
    ∧ updateAlert (some { a with status := Status.IGNORED })
          ⟨UpdateAlertType.UNIGNORE, m⟩
        = Except.ok { a with status := Status.OPEN }
    ∧ updateAlert (some { a with status := Status.OPEN })
          ⟨UpdateAlertType.UNIGNORE, m⟩
        = Except.error (UpdateErr.conflict "Alert is currently not ignored.")
    ∧ updateAlert (some { a with status := Status.RESOLVED })
          ⟨UpdateAlertType.UNIGNORE, m⟩
        = Except.error (UpdateErr.conflict "Alert is currently not ignored.")
    ∧ updateAlert (some { a with status := Status.RESOLVED })
          ⟨UpdateAlertType.UNRESOLVE, m⟩
        = Except.ok { a with status := Status.OPEN }
    ∧ updateAlert (some { a with status := Status.OPEN })
          ⟨UpdateAlertType.UNRESOLVE, m⟩
        = Except.error (UpdateErr.conflict "Alert is currently not resolved.")
    ∧ updateAlert (some { a with status := Status.IGNORED })
          ⟨UpdateAlertType.UNRESOLVE, m⟩
        = Except.error (UpdateErr.conflict "Alert is currently not resolved.")
    ∧ updateAlert lookup ⟨UpdateAlertType.other s, m⟩
        = Except.error (UpdateErr.internal "Unknown update type.") := by
  intro a m s lookup
  refine ⟨rfl, rfl, rfl, rfl, rfl, rfl, rfl, rfl, rfl, rfl⟩

/-- C2 counterexample: for an alert in IGNORED, RESOLVE does not transition
to RESOLVED as the claim states — it is rejected with a conflict. -/
theorem C2_counterexample :
    updateAlert
        (some { type := AlertType.NEW_ENDPOINT, riskScore := 0,
                apiEndpointUuid := "u", description := "d",
                status := Status.IGNORED, resolutionMessage := none,
                context := AlertContext.empty })
        ⟨UpdateAlertType.RESOLVE, some "done"⟩
      = Except.error
          (UpdateErr.conflict "Alert is ignored and cannot be resolved.") :=
  rfl

/-- C2 amended: RESOLVE is valid only from OPEN, where it transitions the
alert to RESOLVED and sets `resolutionMessage` to the trimmed input string or
null for a missing or all-whitespace message; from IGNORED it is rejected
with the conflict "Alert is ignored and cannot be resolved.", and from
RESOLVED with the conflict "Alert is already resolved.". -/
theorem C2_resolve_only_from_open :
    ∀ (a : Alert) (m : Option String),
      updateAlert (some { a with status := Status.OPEN })
          ⟨UpdateAlertType.RESOLVE, m⟩
        = Except.ok { a with status := Status.RESOLVED,
                             resolutionMessage := trimOrNull m }
    ∧ updateAlert (some { a with status := Status.IGNORED })
          ⟨UpdateAlertType.RESOLVE, m⟩
        = Except.error
            (UpdateErr.conflict "Alert is ignored and cannot be resolved.")
    ∧ updateAlert (some { a with status := Status.RESOLVED })
          ⟨UpdateAlertType.RESOLVE, m⟩
        = Except.error (UpdateErr.conflict "Alert is already resolved.")
    ∧ (∀ str : String,
        trimOrNull (some str)
          = if str.trim = "" then none else some str.trim)
    ∧ trimOrNull none = none := by
  intro a m
  refine ⟨rfl, rfl, rfl, fun str => rfl, rfl⟩

/-- C4 counterexample: an alert satisfying the invariant (RESOLVED with a
non-null `resolutionMessage`) is moved to OPEN by UNRESOLVE with the message
retained, so the successful transition breaks the invariant. -/
theorem C4_counterexample :
    resolutionInv
        { type := AlertType.NEW_ENDPOINT, riskScore := 0,
          apiEndpointUuid := "u", description := "d",
          status := Status.RESOLVED, resolutionMessage := some "fixed",
          context := AlertContext.empty }
    ∧ updateAlert
        (some { type := AlertType.NEW_ENDPOINT, riskScore := 0,
                apiEndpointUuid := "u", description := "d",
                status := Status.RESOLVED, resolutionMessage := some "fixed",
                context := AlertContext.empty })
        ⟨UpdateAlertType.UNRESOLVE, none⟩
      = Except.ok
          { type := AlertType.NEW_ENDPOINT, riskScore := 0,
            apiEndpointUuid := "u", description := "d",
            status := Status.OPEN, resolutionMessage := some "fixed",
            context := AlertContext.empty }
    ∧ ¬ resolutionInv
          { type := AlertType.NEW_ENDPOINT, riskScore := 0,
            apiEndpointUuid := "u", description := "d",
            status := Status.OPEN, resolutionMessage := some "fixed",
            context := AlertContext.empty } :=
  ⟨by decide, rfl, by decide⟩

/-- C4 amended: the invariant "resolutionMessage is non-null only when
status is RESOLVED" is preserved by every successful IGNORE, UNIGNORE and
RESOLVE transition, but UNRESOLVE moves a RESOLVED alert to OPEN while
retaining its `resolutionMessage` unchanged, so the invariant is not
preserved by UNRESOLVE. -/
theorem C4_inv_preserved_except_unresolve :
    ∀ (a b : Alert) (p : UpdateAlertParams) (m : Option String),
      (resolutionInv a →
        (p.updateType = UpdateAlertType.IGNORE
          ∨ p.updateType = UpdateAlertType.UNIGNORE
          ∨ p.updateType = UpdateAlertType.RESOLVE) →
        updateAlert (some a) p = Except.ok b →
        resolutionInv b)
    ∧ (a.status = Status.RESOLVED →
        updateAlert (some a) ⟨UpdateAlertType.UNRESOLVE, m⟩
          = Except.ok { a with status := Status.OPEN }) := by
  intro a b p m
  have hopen : resolutionInv a → a.status ≠ Status.RESOLVED →
      a.resolutionMessage = none := by
    intro hinv hs
    by_contra hm
    exact hs (hinv hm)
  constructor
  · intro hinv hcmd hok
    rcases hcmd with hc | hc | hc <;> rcases hstat : a.status <;>
      simp [updateAlert, hc, readStatus, bind, Except.bind, hstat] at hok <;>
      subst hok <;>
      unfold resolutionInv <;>
      first
        | exact fun _ => rfl
        | (intro hm
           exact absurd (hopen hinv (by simp [hstat])) hm)
  · intro hstat
    simp [updateAlert, readStatus, bind, Except.bind, hstat]

/-- C4 witness: the amended preservation applied at a concrete OPEN alert
and an IGNORE command. -/
theorem C4_inv_preserved_witness :
    resolutionInv
      { type := AlertType.NEW_ENDPOINT, riskScore := 0,
        apiEndpointUuid := "u", description := "d",
        status := Status.IGNORED, resolutionMessage := none,
        context := AlertContext.empty } :=
  (C4_inv_preserved_except_unresolve
      { type := AlertType.NEW_ENDPOINT, riskScore := 0,
        apiEndpointUuid := "u", description := "d",
        status := Status.OPEN, resolutionMessage := none,
        context := AlertContext.empty }
      { type := AlertType.NEW_ENDPOINT, riskScore := 0,
        apiEndpointUuid := "u", description := "d",
        status := Status.IGNORED, resolutionMessage := none,
        context := AlertContext.empty }
      ⟨UpdateAlertType.IGNORE, none⟩ none).1
    (by decide) (Or.inl rfl) rfl

/-- C9: for every recognized command of the public surface, a lookup that
returns no alert is not handled — `alert.status` is read off the null result,
raising a null dereference rather than a Conflict or an InternalError. -/
theorem C9_null_lookup_deref :
    ∀ (p : UpdateAlertParams),
      (p.updateType = UpdateAlertType.IGNORE
        ∨ p.updateType = UpdateAlertType.UNIGNORE
        ∨ p.updateType = UpdateAlertType.RESOLVE
        ∨ p.updateType = UpdateAlertType.UNRESOLVE) →
      updateAlert none p = Except.error UpdateErr.nullDeref := by
  intro p hp
  rcases hp with h | h | h | h <;>
    simp [updateAlert, h, readStatus, bind, Except.bind]

/-- C9 witness: the null dereference at the IGNORE command. -/
theorem C9_null_lookup_deref_witness :
    updateAlert none ⟨UpdateAlertType.IGNORE, none⟩
      = Except.error UpdateErr.nullDeref :=
  C9_null_lookup_deref ⟨UpdateAlertType.IGNORE, none⟩ (Or.inl rfl)

/-! ## Deduplication-scope claims -/

/-- The HSTS loop with a non-failing store keeps exactly the props without a
persisted unresolved duplicate, in order, appended to the accumulator. -/
theorem hsts_fold_eq (db : List Alert) (risk : AlertType → Int) :
    ∀ (props : List (ApiEndpointRec × ApiTrace × String)) (acc : List Alert),
      foldSt (hstsStep (pureDb db) risk) props acc
        = StRes.ok (acc
            ++ (props.filter fun p =>
                (findBy db p.1.uuid AlertType.UNSECURED_ENDPOINT_DETECTED
                  p.2.2).isNone).map (mkHstsAlert risk))
  | [], acc => by simp [foldSt]
  | p :: ps, acc => by
    rcases h : findBy db p.1.uuid AlertType.UNSECURED_ENDPOINT_DETECTED p.2.2
      with _ | a <;>
      simp [foldSt, hstsStep, pureDb, h, hsts_fold_eq db risk ps,
        List.filter_cons]

/-- With non-throwing library oracles, the location resolution itself never
throws. -/
theorem resolve_pure_ok (j : String → String → Option Int)
    (y : String → List String → Option Int) (ext : SpecExtension)
    (text : String) (cache : List (String × CacheEntry))
    (pp : List String) :
    ∃ cn, resolveSpecLocation (pureLib j y) ext text cache pp
      = Except.ok cn := by
  unfold resolveSpecLocation pureLib
  rcases h : List.lookup (String.intercalate "." pp) cache with _ | v
  · cases ext
    · rcases ha : adjustLine SpecExtension.JSON (j text (jsonPathKey pp))
        with _ | n
      · exact ⟨(cache, 1), by simp [h, ha]⟩
      · by_cases hn : n = 0
        · exact ⟨(cache, 1), by simp [h, ha, hn]⟩
        · exact ⟨(cache ++ [(String.intercalate "." pp,
            ⟨n, minimizeSpec text n⟩)], 1), by simp [h, ha, hn]⟩
    · rcases ha : adjustLine SpecExtension.YAML (y text pp) with _ | n
      · exact ⟨(cache, 1), by simp [h, ha]⟩
      · by_cases hn : n = 0
        · exact ⟨(cache, 1), by simp [h, ha, hn]⟩
        · exact ⟨(cache ++ [(String.intercalate "." pp,
            ⟨n, minimizeSpec text n⟩)], 1), by simp [h, ha, hn]⟩
  · exact ⟨(cache, 0), by simp [h]⟩

/-- One spec-diff iteration with pure oracles succeeds and appends the draft
exactly when no persisted unresolved duplicate of the key exists. -/
theorem specDiffStep_pure (db : List Alert)
    (j : String → String → Option Int)
    (y : String → List String → Option Int) (risk : AlertType → Int)
    (uuid : String) (trace : ApiTrace) (ext : SpecExtension) (text : String)
    (st : SDState) (kv : String × List String) :
    ∃ st', specDiffStep (pureDb db) (pureLib j y) storeOk risk uuid trace ext
        text st kv = StRes.ok st'
      ∧ st'.alerts = st.alerts
          ++ (if (findBy db uuid AlertType.OPEN_API_SPEC_DIFF kv.1).isNone
              then [mkDiffAlert risk uuid trace kv] else []) := by
  rcases h : findBy db uuid AlertType.OPEN_API_SPEC_DIFF kv.1 with _ | a
  · obtain ⟨⟨c1, d1⟩, hres⟩ := resolve_pure_ok j y ext text st.cache kv.2
    refine ⟨⟨st.alerts ++ [mkDiffAlert risk uuid trace kv], c1,
      st.parses + d1⟩, ?_, ?_⟩
    · simp [specDiffStep, pureDb, h, hres, storeOk]
    · simp [h]
  · refine ⟨st, ?_, ?_⟩
    · simp [specDiffStep, pureDb, h, storeOk]
    · simp [h]

/-- The spec-diff loop with pure oracles succeeds and its batch is exactly
the filtered, mapped key list. -/
theorem specDiff_fold_alerts (db : List Alert)
    (j : String → String → Option Int)
    (y : String → List String → Option Int) (risk : AlertType → Int)
    (uuid : String) (trace : ApiTrace) (ext : SpecExtension) (text : String) :
    ∀ (items : List (String × List String)) (st : SDState),
      ∃ st', foldSt (specDiffStep (pureDb db) (pureLib j y) storeOk risk uuid
          trace ext text) items st = StRes.ok st'
        ∧ st'.alerts = st.alerts
            ++ (items.filter fun kv =>
                (findBy db uuid AlertType.OPEN_API_SPEC_DIFF kv.1).isNone).map
              (fun kv => mkDiffAlert risk uuid trace kv)
  | [], st => ⟨st, by simp [foldSt], by simp⟩
  | kv :: rest, st => by
    obtain ⟨st1, hstep, halerts1⟩ :=
      specDiffStep_pure db j y risk uuid trace ext text st kv
    obtain ⟨st2, hrest, halerts2⟩ :=
      specDiff_fold_alerts db j y risk uuid trace ext text rest st1
    refine ⟨st2, by simp [foldSt, hstep, hrest], ?_⟩
    rw [halerts2, halerts1]
    rcases h : findBy db uuid AlertType.OPEN_API_SPEC_DIFF kv.1 with _ | a <;>
      simp [List.filter_cons, h]

/-- C1 (amended): the in-batch plus persisted OR-combined dedup check guards
only the data-field candidates; `createSpecDiffAlerts` and
`createMissingHSTSAlert` consult only the persisted unresolved check, so
their drafts are exactly the entries without a persisted unresolved
duplicate (identical entries in one call each produce a draft); a data-field
candidate is suppressed iff an in-batch `(apiEndpointUuid, description)`
duplicate or a persisted unresolved `(apiEndpointUuid, type, description)`
duplicate exists; and a store whose only matches are RESOLVED yields no
persisted duplicate, so a new draft is produced. -/
theorem C1_dedup_scope :
    (∀ (db : List Alert) (risk : AlertType → Int)
        (props : List (ApiEndpointRec × ApiTrace × String)),
      createMissingHSTSAlert (pureDb db) risk (some props)
        = (props.filter fun p =>
            (findBy db p.1.uuid AlertType.UNSECURED_ENDPOINT_DETECTED
              p.2.2).isNone).map (mkHstsAlert risk))
  ∧ (∀ (db : List Alert) (j : String → String → Option Int)
        (y : String → List String → Option Int) (risk : AlertType → Int)
        (items : List (String × List String)) (uuid : String)
        (trace : ApiTrace) (spec : OpenApiSpecRec),
      createSpecDiffAlerts (pureDb db) (pureLib j y) storeOk risk (some items)
          uuid trace spec
        = (items.filter fun kv =>
            (findBy db uuid AlertType.OPEN_API_SPEC_DIFF kv.1).isNone).map
          (fun kv => mkDiffAlert risk uuid trace kv))
  ∧ (∀ (db : List Alert) (risk : AlertType → Int) (uuid : String)
        (alerts : List Alert) (c : Candidate),
      addCandidate (pureDb db) risk uuid alerts c
        = StRes.ok
            (if existingDataFieldAlert (some alerts) uuid c.description
                || (findBy db uuid c.type c.description).isSome then alerts
              else alerts ++ [mkCandidateAlert risk uuid c]))
  ∧ (∀ (db : List Alert) (risk : AlertType → Int) (uuid : String)
        (alerts : List Alert) (c : Candidate),
      addCandidate (pureDb db) risk uuid alerts c = StRes.ok alerts
        ↔ (existingDataFieldAlert (some alerts) uuid c.description
            || (findBy db uuid c.type c.description).isSome) = true)
  ∧ (∀ (db : List Alert) (u : String) (t : AlertType) (d : String),
      (∀ a ∈ db, a.apiEndpointUuid = u → a.type = t → a.description = d →
        a.status = Status.RESOLVED) →
      findBy db u t d = none) := by
  have key : ∀ (db : List Alert) (risk : AlertType → Int) (uuid : String)
      (alerts : List Alert) (c : Candidate),
      addCandidate (pureDb db) risk uuid alerts c
        = StRes.ok
            (if existingDataFieldAlert (some alerts) uuid c.description
                || (findBy db uuid c.type c.description).isSome then alerts
              else alerts ++ [mkCandidateAlert risk uuid c]) := by
    intro db risk uuid alerts c
    by_cases hb : existingDataFieldAlert (some alerts) uuid c.description
    · simp [addCandidate, hb]
    · rcases hdb : findBy db uuid c.type c.description with _ | a <;>
        simp [addCandidate, pureDb, hb, hdb]
  refine ⟨?_, ?_, key, ?_, ?_⟩
  · intro db risk props
    simp [createMissingHSTSAlert, hstsInner, hsts_fold_eq db risk props]
  · intro db j y risk items uuid trace spec
    rcases items with _ | ⟨kv, rest⟩
    · simp [createSpecDiffAlerts]
    · obtain ⟨st', hfold, halerts⟩ := specDiff_fold_alerts db j y risk uuid
        trace spec.extension spec.spec (kv :: rest)
        ⟨[], spec.minimizedSpecContext, 0⟩
      simp [createSpecDiffAlerts, specDiffInner, hfold, halerts]
  · intro db risk uuid alerts c
    rw [key db risk uuid alerts c]
    by_cases hcond : (existingDataFieldAlert (some alerts) uuid c.description
        || (findBy db uuid c.type c.description).isSome) = true
    · simp [hcond]
    · simp [hcond]
  · intro db u t d hres
    rw [findBy, List.find?_eq_none]
    intro a ha
    simp only [unresolvedMatch, Bool.and_eq_true, beq_iff_eq,
      Bool.not_eq_true', beq_eq_false_iff_ne, ne_eq]
    intro h
    exact absurd (hres a ha h.1.1.1 h.1.1.2 h.2) h.1.2

/-- C1 counterexample: two identical HSTS props in one call, with an empty
persisted store, both produce drafts — when the second one is processed the
in-memory batch already holds a draft with the same
`(apiEndpointUuid, description)` (second conjunct), yet it is not
suppressed, contradicting the claimed OR-combined suppression for
`createMissingHSTSAlert`. -/
theorem C1_counterexample :
    createMissingHSTSAlert (pureDb []) (fun _ => 0)
        (some [(⟨"u", "/p", "h"⟩, ⟨"h", "/p", none⟩, "dup"),
               (⟨"u", "/p", "h"⟩, ⟨"h", "/p", none⟩, "dup")])
      = [mkHstsAlert (fun _ => 0) (⟨"u", "/p", "h"⟩, ⟨"h", "/p", none⟩, "dup"),
         mkHstsAlert (fun _ => 0) (⟨"u", "/p", "h"⟩, ⟨"h", "/p", none⟩, "dup")]
    ∧ existingDataFieldAlert
        (some [mkHstsAlert (fun _ => 0)
          (⟨"u", "/p", "h"⟩, ⟨"h", "/p", none⟩, "dup")]) "u" "dup"
      = true :=
  ⟨rfl, rfl⟩

/-- C1 witness: a store holding only a RESOLVED duplicate does not suppress,
so the HSTS call produces the draft again. -/
theorem C1_dedup_scope_witness :
    findBy [{ type := AlertType.UNSECURED_ENDPOINT_DETECTED, riskScore := 0,
              apiEndpointUuid := "u", description := "d",
              status := Status.RESOLVED, resolutionMessage := none,
              context := AlertContext.empty }]
        "u" AlertType.UNSECURED_ENDPOINT_DETECTED "d" = none
    ∧ createMissingHSTSAlert
        (pureDb [{ type := AlertType.UNSECURED_ENDPOINT_DETECTED,
                   riskScore := 0, apiEndpointUuid := "u", description := "d",
                   status := Status.RESOLVED, resolutionMessage := none,
                   context := AlertContext.empty }])
        (fun _ => 0) (some [(⟨"u", "/p", "h"⟩, ⟨"h", "/p", none⟩, "d")])
      = [mkHstsAlert (fun _ => 0) (⟨"u", "/p", "h"⟩, ⟨"h", "/p", none⟩, "d")] := by
  constructor
  · exact C1_dedup_scope.2.2.2.2 _ "u" AlertType.UNSECURED_ENDPOINT_DETECTED
      "d" (by decide)
  · rw [C1_dedup_scope.1]
    rfl

/-! ## Query-ordering claims -/

/-- The three-way integer comparison is monotone in its first and
antitone in its second argument, characterized per outcome. -/
theorem intCmp_eq_lt {a b : Int} : intCmp a b = Ordering.lt ↔ a < b := by
  unfold intCmp
  split_ifs <;> simp <;> omega

theorem intCmp_eq_gt {a b : Int} : intCmp a b = Ordering.gt ↔ b < a := by
  unfold intCmp
  split_ifs <;> simp <;> omega

theorem intCmp_eq_eq {a b : Int} : intCmp a b = Ordering.eq ↔ a = b := by
  unfold intCmp
  split_ifs <;> simp <;> omega

theorem intCmp_swap (a b : Int) : intCmp b a = (intCmp a b).swap := by
  unfold intCmp
  split_ifs <;> first | rfl | omega

/-- One `ORDER BY` key compares like the direction-adjusted value. -/
theorem cmpField_eq_dirVal (f : SortField) (d : SortDir) (a b : AlertRow) :
    cmpField f d a b = intCmp (dirVal f d a) (dirVal f d b) := by
  cases d <;> simp only [cmpField, dirVal] <;> unfold intCmp <;>
    split_ifs <;> first | rfl | omega

/-- Lexicographic key comparison flips under argument swap. -/
theorem keysCmp_swap (ks : List (SortField × SortDir)) :
    ∀ a b : AlertRow, keysCmp ks b a = (keysCmp ks a b).swap := by
  induction ks with
  | nil => intro a b; rfl
  | cons fd rest ih =>
    rcases fd with ⟨f, d⟩
    intro a b
    simp only [keysCmp, cmpField_eq_dirVal]
    rw [intCmp_swap (dirVal f d a) (dirVal f d b)]
    cases hx : intCmp (dirVal f d a) (dirVal f d b) <;>
      simp [Ordering.swap, ih a b]

/-- Lexicographic key comparison is total as a "not greater" relation. -/
theorem keysCmp_total (ks : List (SortField × SortDir)) (a b : AlertRow) :
    keysCmp ks a b ≠ Ordering.gt ∨ keysCmp ks b a ≠ Ordering.gt := by
  cases hx : keysCmp ks a b with
  | gt =>
    right
    rw [keysCmp_swap ks a b, hx]
    simp [Ordering.swap]
  | lt => left; simp [hx]
  | eq => left; simp [hx]

/-- Lexicographic key comparison is transitive as a "not greater"
relation. -/
theorem keysCmp_trans (ks : List (SortField × SortDir)) :
    ∀ a b c : AlertRow, keysCmp ks a b ≠ Ordering.gt →
      keysCmp ks b c ≠ Ordering.gt → keysCmp ks a c ≠ Ordering.gt := by
  induction ks with
  | nil => intro a b c _ _; simp [keysCmp]
  | cons fd rest ih =>
    rcases fd with ⟨f, d⟩
    intro a b c hab hbc
    simp only [keysCmp, cmpField_eq_dirVal] at hab hbc ⊢
    cases hx : intCmp (dirVal f d a) (dirVal f d b) <;>
      cases hy : intCmp (dirVal f d b) (dirVal f d c) <;>
      rw [hx] at hab <;> rw [hy] at hbc <;>
      simp only [] at hab hbc <;>
      first
        | exact absurd rfl hab
        | exact absurd rfl hbc
        | (have hz : intCmp (dirVal f d a) (dirVal f d c) = Ordering.lt := by
            rw [intCmp_eq_lt]
            have h1 := hx
            have h2 := hy
            first
              | (rw [intCmp_eq_lt] at h1 h2; omega)
              | (rw [intCmp_eq_lt] at h1; rw [intCmp_eq_eq] at h2; omega)
              | (rw [intCmp_eq_eq] at h1; rw [intCmp_eq_lt] at h2; omega)
           rw [hz]
           simp)
        | (have hz : intCmp (dirVal f d a) (dirVal f d c) = Ordering.eq := by
            rw [intCmp_eq_eq]
            have h1 := hx
            have h2 := hy
            rw [intCmp_eq_eq] at h1 h2
            omega
           rw [hz]
           exact ih a b c hab hbc)

/-- C3 (amended): `getAlerts` sorts primarily by status descending — for any
two returned alerts with different statuses, status alone decides their
relative order regardless of risk score — secondarily by risk score in the
caller-supplied direction (descending by default), and thirdly by creation
time descending. -/
theorem C3_status_is_primary_sort :
    ∀ (ord : Option SortDir) (rows : List AlertRow),
      List.Pairwise (rowLe ord) (getAlertsSorted ord rows)
    ∧ (∀ a b : AlertRow, statusRank b.status < statusRank a.status →
        keysCmp (findOrder ord) a b = Ordering.lt)
    ∧ (∀ a b : AlertRow, a.status = b.status → b.riskScore < a.riskScore →
        keysCmp (findOrder none) a b = Ordering.lt)
    ∧ (∀ a b : AlertRow, a.status = b.status → a.riskScore = b.riskScore →
        b.createdAt < a.createdAt →
        keysCmp (findOrder ord) a b = Ordering.lt) := by
  intro ord rows
  refine ⟨?_, ?_, ?_, ?_⟩
  · haveI : IsTotal AlertRow (rowLe ord) :=
      ⟨fun a b => keysCmp_total (findOrder ord) a b⟩
    haveI : IsTrans AlertRow (rowLe ord) :=
      ⟨fun a b c => keysCmp_trans (findOrder ord) a b c⟩
    exact List.sorted_insertionSort (rowLe ord) rows
  · intro a b h
    simp [findOrder, orderParams, keysCmp, cmpField, fieldVal, intCmp, h]
  · intro a b hs hr
    simp [findOrder, orderParams, keysCmp, cmpField, fieldVal, intCmp, hs, hr]
  · intro a b hs hr hc
    rcases ord with _ | d
    · simp [findOrder, orderParams, keysCmp, cmpField, fieldVal, intCmp,
        hs, hr, hc]
    · cases d <;>
        simp [findOrder, orderParams, keysCmp, cmpField, fieldVal, intCmp,
          hs, hr, hc]

/-- C3 counterexample: with no caller-supplied order (default descending
risk), a RESOLVED alert with risk score 1 is returned before an OPEN alert
with risk score 10 — the relative order of two alerts with different risk
scores is decided by status, not by risk score. -/
theorem C3_counterexample :
    getAlertsSorted none
        [⟨"b", 10, Status.OPEN, 0⟩, ⟨"a", 1, Status.RESOLVED, 0⟩]
      = [⟨"a", 1, Status.RESOLVED, 0⟩, ⟨"b", 10, Status.OPEN, 0⟩]
    ∧ (1 : Int) < 10 := by
  constructor
  · decide
  · decide

/-! ## Spec-location cache claim -/

/-- C8: when `minimizedSpecContext` already holds an entry for the joined
pointer key, the resolution step returns without parsing (zero parses) and
with the cache — hence the cached `(lineNumber, minimizedSpec)` pair —
unchanged and available for reuse; moreover any resolution parses at most
once, and after a first resolution that cached the key, resolving the same
pointer again performs no parse and observes the same cache. -/
theorem C8_cache_hit_no_reparse :
    ∀ (lib : SpecLibOracle) (ext : SpecExtension) (specText : String)
      (cache : List (String × CacheEntry)) (pp : List String),
      (∀ v : CacheEntry,
        List.lookup (String.intercalate "." pp) cache = some v →
        resolveSpecLocation lib ext specText cache pp = Except.ok (cache, 0))
    ∧ (∀ (c1 : List (String × CacheEntry)) (n1 : Nat),
        resolveSpecLocation lib ext specText cache pp = Except.ok (c1, n1) →
        n1 ≤ 1
        ∧ ∀ v1 : CacheEntry,
            List.lookup (String.intercalate "." pp) c1 = some v1 →
            resolveSpecLocation lib ext specText c1 pp
              = Except.ok (c1, 0)) := by
  intro lib ext specText cache pp
  have hit : ∀ (c : List (String × CacheEntry)) (v : CacheEntry),
      List.lookup (String.intercalate "." pp) c = some v →
      resolveSpecLocation lib ext specText c pp = Except.ok (c, 0) := by
    intro c v hv
    simp [resolveSpecLocation, hv]
  refine ⟨fun v hv => hit cache v hv, ?_⟩
  intro c1 n1 hres
  refine ⟨?_, fun v1 hv1 => hit c1 v1 hv1⟩
  simp only [resolveSpecLocation] at hres
  repeat' split at hres
  all_goals simp_all
  all_goals omega

/-- C8 witness: a concrete cache hit resolves with no parse and leaves the
cache unchanged. -/
theorem C8_cache_hit_witness :
    resolveSpecLocation (pureLib (fun _ _ => none) (fun _ _ => none))
        SpecExtension.JSON "\x7b\x7d" [("a.b", ⟨3, "x"⟩)] ["a", "b"]
      = Except.ok ([("a.b", ⟨3, "x"⟩)], 0)
    ∧ (0 : Nat) ≤ 1 := by
  have w := C8_cache_hit_no_reparse
    (pureLib (fun _ _ => none) (fun _ _ => none)) SpecExtension.JSON
    "\x7b\x7d" [("a.b", ⟨3, "x"⟩)] ["a", "b"]
  have h1 := w.1 ⟨3, "x"⟩ rfl
  exact ⟨h1, (w.2 [("a.b", ⟨3, "x"⟩)] 0 h1).1⟩

/-! ## Best-effort batch claims -/

/-- C6: for each of the three batch constructors, an exception thrown inside
the `try` body is caught and the call returns the empty list; since the
embedded functions return plain lists, nothing propagates to the caller. -/
theorem C6_batch_exceptions_caught :
    ∀ (dbo : DbOracle) (risk : AlertType → Int) (lib : SpecLibOracle)
      (store : StoreOracle) (dfs : List DataField)
      (uuid endpointPath : String) (trace : ApiTrace)
      (sens : Option (List Alert)) (items : List (String × List String))
      (uuid2 : String) (trace2 : ApiTrace) (spec : OpenApiSpecRec)
      (props : List (ApiEndpointRec × ApiTrace × String)),
      (∀ e s, dataFieldInner dbo risk dfs uuid endpointPath trace sens
          = StRes.failed e s →
        createDataFieldAlerts dbo risk (some dfs) uuid endpointPath trace sens
          = [])
    ∧ (∀ e s, specDiffInner dbo lib store risk items uuid2 trace2 spec
          = StRes.failed e s →
        createSpecDiffAlerts dbo lib store risk (some items) uuid2 trace2
          spec = [])
    ∧ (∀ e s, hstsInner dbo risk props = StRes.failed e s →
        createMissingHSTSAlert dbo risk (some props) = []) := by
  intro dbo risk lib store dfs uuid endpointPath trace sens items uuid2
    trace2 spec props
  refine ⟨?_, ?_, ?_⟩
  · intro e s h
    simp [createDataFieldAlerts, h]
  · intro e s h
    rcases items with _ | ⟨kv, rest⟩
    · simp [specDiffInner, foldSt] at h
    · simp [createSpecDiffAlerts, h]
  · intro e s h
    simp [createMissingHSTSAlert, h]

/-- C6 witness: with a rejecting repository, each of the three constructors
fails internally and returns the empty list. -/
theorem C6_batch_exceptions_witness :
    createDataFieldAlerts failingDb (fun _ => 0)
        (some [⟨DataSection.REQUEST_BODY, "card", some ["ssn"]⟩]) "u" "/p"
        ⟨"h", "/p", none⟩ none = []
    ∧ createSpecDiffAlerts failingDb
        (pureLib (fun _ _ => none) (fun _ _ => none)) storeOk (fun _ => 0)
        (some [("k", ["paths"])]) "u" ⟨"h", "/p", none⟩
        ⟨"s", SpecExtension.JSON, "\x7b\x7d", []⟩ = []
    ∧ createMissingHSTSAlert failingDb (fun _ => 0)
        (some [(⟨"u", "/p", "h"⟩, ⟨"h", "/p", none⟩, "d")]) = [] := by
  have w := C6_batch_exceptions_caught failingDb (fun _ => 0)
    (pureLib (fun _ _ => none) (fun _ _ => none)) storeOk
    [⟨DataSection.REQUEST_BODY, "card", some ["ssn"]⟩] "u" "/p"
    ⟨"h", "/p", none⟩ none [("k", ["paths"])] "u" ⟨"h", "/p", none⟩
    ⟨"s", SpecExtension.JSON, "\x7b\x7d", []⟩
    [(⟨"u", "/p", "h"⟩, ⟨"h", "/p", none⟩, "d")]
  exact ⟨w.1 (DbErr.dbFailure "db down") [] rfl,
    w.2.1 (SDErr.db (DbErr.dbFailure "db down")) ⟨[], [], 0⟩ rfl,
    w.2.2 (DbErr.dbFailure "db down") [] rfl⟩

/-! ## Accumulator-aliasing claim -/

/-- A loop whose every iteration only appends to the accumulator leaves the
initial content as a prefix of the final state, whether or not it throws. -/
theorem foldSt_state_mono {ε α : Type}
    (f : List Alert → α → StRes ε (List Alert))
    (hf : ∀ s a, s <+: (f s a).state) :
    ∀ (l : List α) (s : List Alert), s <+: (foldSt f l s).state
  | [], _ => List.prefix_rfl
  | x :: xs, s => by
    rcases h : f s x with s' | ⟨e, s'⟩
    · have h1 : s <+: s' := by
        have := hf s x
        rw [h] at this
        exact this
      have h2 := foldSt_state_mono f hf xs s'
      simpa [foldSt, h] using h1.trans h2
    · have h1 : s <+: s' := by
        have := hf s x
        rw [h] at this
        exact this
      simpa [foldSt, h, StRes.state] using h1

/-- Each candidate step only appends. -/
theorem addCandidate_state_mono (dbo : DbOracle) (risk : AlertType → Int)
    (uuid : String) :
    ∀ (s : List Alert) (c : Candidate),
      s <+: (addCandidate dbo risk uuid s c).state := by
  intro s c
  unfold addCandidate
  by_cases hb : existingDataFieldAlert (some s) uuid c.description
  · rw [if_pos hb]
    exact List.prefix_rfl
  · rw [if_neg hb]
    rcases dbo uuid c.type c.description with e | ex
    · exact List.prefix_rfl
    · rcases ex with _ | a
      · exact List.prefix_append _ _
      · exact List.prefix_rfl

/-- The basic-auth scan only appends. -/
theorem processHeaderField_state_mono (dbo : DbOracle)
    (risk : AlertType → Int) (uuid : String) (trace : ApiTrace) :
    ∀ s : List Alert, s <+: (processHeaderField dbo risk uuid trace s).state := by
  intro s
  rcases hH : trace.requestHeaders with _ | hs
  · simp only [processHeaderField, hH]
    exact List.prefix_rfl
  · rcases hF : hs.find? isBasicAuthHeader with _ | h
    · simp only [processHeaderField, hH, hF]
      exact List.prefix_rfl
    · by_cases hb : existingDataFieldAlert (some s) uuid basicAuthDescription
        = true
      · simp only [processHeaderField, hH, hF, hb, if_true]
        exact List.prefix_rfl
      · rcases hdb : dbo uuid AlertType.BASIC_AUTHENTICATION_DETECTED
            basicAuthDescription with e | ex
        · simp only [processHeaderField, hH, hF, hdb, hb]
          exact List.prefix_rfl
        · rcases ex with _ | a
          · simp only [processHeaderField, hH, hF, hdb, hb]
            exact List.prefix_append _ _
          · simp only [processHeaderField, hH, hF, hdb, hb]
            exact List.prefix_rfl

/-- Each data-field step only appends. -/
theorem processDataField_state_mono (dbo : DbOracle)
    (risk : AlertType → Int) (uuid endpointPath : String) (trace : ApiTrace) :
    ∀ (s : List Alert) (df : DataField),
      s <+: (processDataField dbo risk uuid endpointPath trace s df).state := by
  intro s df
  unfold processDataField
  have hpre : s <+: ((if df.dataSection == DataSection.REQUEST_HEADER then
      processHeaderField dbo risk uuid trace s else StRes.ok s)).state := by
    split
    · exact processHeaderField_state_mono dbo risk uuid trace s
    · exact List.prefix_rfl
  rcases h : (if df.dataSection == DataSection.REQUEST_HEADER then
      processHeaderField dbo risk uuid trace s else StRes.ok s)
    with s1 | ⟨e, s1⟩ <;>
    rw [h] at hpre
  · rcases df.dataClasses with _ | classes
    · exact hpre
    · refine hpre.trans ?_
      refine foldSt_state_mono _ ?_ classes s1
      intro s' cl
      exact foldSt_state_mono _ (addCandidate_state_mono dbo risk uuid) _ s'
  · exact hpre

/-- C10: the caller-supplied `sensitiveDataAlerts` array is the
accumulator itself: on success the returned list is the array's final
content, which extends the caller's pre-existing entries; on an exception
the call returns a fresh empty list while the caller's array still holds
every draft appended before the failure — the degraded-result path is not
atomic with respect to the caller's array. -/
theorem C10_accumulator_aliasing :
    ∀ (dbo : DbOracle) (risk : AlertType → Int) (dfs : List DataField)
      (uuid endpointPath : String) (trace : ApiTrace) (init : List Alert),
      (∀ s, dataFieldInner dbo risk dfs uuid endpointPath trace (some init)
          = StRes.ok s →
        createDataFieldAlertsRun dbo risk (some dfs) uuid endpointPath trace
            (some init) = (s, s)
        ∧ init <+: s)
    ∧ (∀ e s, dataFieldInner dbo risk dfs uuid endpointPath trace (some init)
          = StRes.failed e s →
        createDataFieldAlertsRun dbo risk (some dfs) uuid endpointPath trace
            (some init) = ([], s)
        ∧ init <+: s)
    ∧ createDataFieldAlerts dbo risk (some dfs) uuid endpointPath trace
          (some init)
        = (createDataFieldAlertsRun dbo risk (some dfs) uuid endpointPath
            trace (some init)).1 := by
  intro dbo risk dfs uuid endpointPath trace init
  have hmono : init
      <+: (dataFieldInner dbo risk dfs uuid endpointPath trace
        (some init)).state := by
    unfold dataFieldInner
    exact foldSt_state_mono _
      (processDataField_state_mono dbo risk uuid endpointPath trace) dfs init
  refine ⟨?_, ?_, ?_⟩
  · intro s h
    rw [h] at hmono
    exact ⟨by simp [createDataFieldAlertsRun, h], hmono⟩
  · intro e s h
    rw [h] at hmono
    exact ⟨by simp [createDataFieldAlertsRun, h], hmono⟩
  · rcases h : dataFieldInner dbo risk dfs uuid endpointPath trace
        (some init) with s | ⟨e, s⟩ <;>
      simp [createDataFieldAlerts, createDataFieldAlertsRun, h]

/-- C10 witness: a batch failing on its second store query returns the empty
list while the caller's array has gained the draft pushed before the
failure. -/
theorem C10_accumulator_aliasing_witness :
    createDataFieldAlertsRun flakyDb (fun _ => 0)
        (some [⟨DataSection.REQUEST_QUERY, "q", some ["ssn"]⟩]) "u" "/p"
        ⟨"h", "/p", none⟩
        (some [{ type := AlertType.NEW_ENDPOINT, riskScore := 0,
                 apiEndpointUuid := "u", description := "d",
                 status := Status.OPEN, resolutionMessage := none,
                 context := AlertContext.empty }])
      = ([],
         [{ type := AlertType.NEW_ENDPOINT, riskScore := 0,
            apiEndpointUuid := "u", description := "d",
            status := Status.OPEN, resolutionMessage := none,
            context := AlertContext.empty },
          mkCandidateAlert (fun _ => 0) "u"
            ⟨piiDescription "ssn" ⟨DataSection.REQUEST_QUERY, "q", some ["ssn"]⟩,
              AlertType.PII_DATA_DETECTED,
              AlertContext.trace ⟨"h", "/p", none⟩⟩])
    ∧ [{ type := AlertType.NEW_ENDPOINT, riskScore := 0,
         apiEndpointUuid := "u", description := "d", status := Status.OPEN,
         resolutionMessage := none, context := AlertContext.empty }]
      <+: [{ type := AlertType.NEW_ENDPOINT, riskScore := 0,
             apiEndpointUuid := "u", description := "d",
             status := Status.OPEN, resolutionMessage := none,
             context := AlertContext.empty },
           mkCandidateAlert (fun _ => 0) "u"
             ⟨piiDescription "ssn"
                ⟨DataSection.REQUEST_QUERY, "q", some ["ssn"]⟩,
               AlertType.PII_DATA_DETECTED,
               AlertContext.trace ⟨"h", "/p", none⟩⟩] :=
  (C10_accumulator_aliasing flakyDb (fun _ => 0)
      [⟨DataSection.REQUEST_QUERY, "q", some ["ssn"]⟩] "u" "/p"
      ⟨"h", "/p", none⟩
      [{ type := AlertType.NEW_ENDPOINT, riskScore := 0,
         apiEndpointUuid := "u", description := "d", status := Status.OPEN,
         resolutionMessage := none, context := AlertContext.empty }]).2.1
    (DbErr.dbFailure "db down") _ rfl

/-! ## Basic-auth detection claim -/

/-- Strings whose first characters differ are different. -/
theorem ne_of_data_head {a b : String} (h : a.data.head? ≠ b.data.head?) :
    a ≠ b :=
  fun e => h (congrArg (fun s => s.data.head?) e)

/-- Appending on the right keeps the first character. -/
theorem head_of_append (p q : String) (c : Char)
    (h : p.data.head? = some c) : (p ++ q).data.head? = some c := by
  rcases hd : p.data with _ | ⟨x, xs⟩
  · rw [hd] at h
    cases h
  · rw [hd] at h
    rw [String.data_append, hd]
    simpa using h

/-- The generic PII description always starts with `S`. -/
theorem piiDescription_head (dc : String) (df : DataField) :
    (piiDescription dc df).data.head? = some 'S' := by
  unfold piiDescription
  exact head_of_append _ _ _ (head_of_append _ _ _ (head_of_append _ _ _
    (head_of_append _ _ _ (head_of_append _ _ _ rfl))))

/-- The query-parameter description always starts with `Q`. -/
theorem queryDescription_head (dc : String) (df : DataField) :
    (queryDescription dc df).data.head? = some 'Q' := by
  unfold queryDescription
  exact head_of_append _ _ _ (head_of_append _ _ _ (head_of_append _ _ _ rfl))

/-- Every outcome of the path-token scan starts with `P`. -/
theorem pathScanFold_head (dp dc : String) :
    ∀ (l : List (Nat × String)) (acc : Option Nat × String),
      acc.2.data.head? = some 'P' →
      ((l.foldl (pathScanStep dp dc) acc).2).data.head? = some 'P'
  | [], _, h => h
  | x :: xs, acc, h =>
    pathScanFold_head dp dc xs (pathScanStep dp dc acc x) (by
      unfold pathScanStep
      split
      · exact head_of_append _ _ _ (head_of_append _ _ _
          (head_of_append _ _ _ rfl))
      · exact h)

/-- The path-parameter description always starts with `P`. -/
theorem pathParamScan_head (tokens : List String) (dp dc : String) :
    ((pathParamScan tokens dp dc).2).data.head? = some 'P' :=
  pathScanFold_head dp dc tokens.enum _
    (head_of_append _ _ _ (head_of_append _ _ _ rfl))

/-- No candidate built for a data class carries the basic-auth
description. -/
theorem candidates_ne_basic (trace : ApiTrace) (endpointPath : String)
    (df : DataField) (dc : String) :
    ∀ c ∈ candidatesFor trace endpointPath df dc,
      c.description ≠ basicAuthDescription := by
  intro c hc
  unfold candidatesFor at hc
  rcases List.mem_append.mp hc with h12 | h3
  · rcases List.mem_append.mp h12 with h1 | h2
    · rw [List.mem_singleton] at h1
      subst h1
      exact ne_of_data_head (by rw [piiDescription_head]; decide)
    · rcases hq : df.dataSection == DataSection.REQUEST_QUERY <;>
        rw [hq] at h2 <;> simp at h2
      subst h2
      exact ne_of_data_head (by rw [queryDescription_head]; decide)
  · rcases hp : df.dataSection == DataSection.REQUEST_PATH <;>
      rw [hp] at h3 <;> simp at h3
    subst h3
    exact ne_of_data_head (by rw [pathParamScan_head]; decide)

/-- The in-batch basic-auth check fails exactly when the batch has no
`(uuid, basicAuthDescription)` entry. -/
theorem edfa_false_iff (uuid : String) (l : List Alert) :
    existingDataFieldAlert (some l) uuid basicAuthDescription = false
      ↔ bdFilter uuid l = [] := by
  simp [existingDataFieldAlert, bdFilter, List.filter_eq_nil_iff]

/-- The candidate step over a pure store, as a single equation. -/
theorem addCandidate_pure_eq (db : List Alert) (risk : AlertType → Int)
    (uuid : String) (alerts : List Alert) (c : Candidate) :
    addCandidate (pureDb db) risk uuid alerts c
      = StRes.ok
          (if existingDataFieldAlert (some alerts) uuid c.description
              || (findBy db uuid c.type c.description).isSome then alerts
            else alerts ++ [mkCandidateAlert risk uuid c]) := by
  by_cases hb : existingDataFieldAlert (some alerts) uuid c.description
  · simp [addCandidate, hb]
  · rcases hdb : findBy db uuid c.type c.description with _ | a <;>
      simp [addCandidate, pureDb, hb, hdb]

/-- A candidate whose description is not the basic-auth description leaves
the basic-auth entries of the batch unchanged. -/
theorem addCandidate_bd (db : List Alert) (risk : AlertType → Int)
    (uuid : String) (alerts : List Alert) (c : Candidate)
    (hc : c.description ≠ basicAuthDescription) :
    ∃ s, addCandidate (pureDb db) risk uuid alerts c = StRes.ok s
      ∧ bdFilter uuid s = bdFilter uuid alerts := by
  rw [addCandidate_pure_eq]
  refine ⟨_, rfl, ?_⟩
  split
  · rfl
  · simp [bdFilter, List.filter_append, mkCandidateAlert, hc]

/-- Folding candidates that all avoid the basic-auth description preserves
the basic-auth entries. -/
theorem candFold_bd (db : List Alert) (risk : AlertType → Int)
    (uuid : String) :
    ∀ (cs : List Candidate),
      (∀ c ∈ cs, c.description ≠ basicAuthDescription) →
      ∀ alerts : List Alert,
        ∃ s, foldSt (addCandidate (pureDb db) risk uuid) cs alerts
            = StRes.ok s
          ∧ bdFilter uuid s = bdFilter uuid alerts
  | [], _, alerts => ⟨alerts, by simp [foldSt], rfl⟩
  | c :: cs, h, alerts => by
    obtain ⟨s1, h1, hb1⟩ :=
      addCandidate_bd db risk uuid alerts c (h c (by simp))
    obtain ⟨s2, h2, hb2⟩ :=
      candFold_bd db risk uuid cs (fun c' hc' => h c' (by simp [hc'])) s1
    exact ⟨s2, by simp [foldSt, h1, h2], by rw [hb2, hb1]⟩

/-- One data-class step preserves the basic-auth entries. -/
theorem classStep_bd (db : List Alert) (risk : AlertType → Int)
    (uuid : String) (trace : ApiTrace) (endpointPath : String)
    (df : DataField) (alerts : List Alert) (dc : String) :
    ∃ s, classStep (pureDb db) risk uuid trace endpointPath df alerts dc
        = StRes.ok s
      ∧ bdFilter uuid s = bdFilter uuid alerts :=
  candFold_bd db risk uuid (candidatesFor trace endpointPath df dc)
    (candidates_ne_basic trace endpointPath df dc) alerts

/-- The data-class loop preserves the basic-auth entries. -/
theorem classesFold_bd (db : List Alert) (risk : AlertType → Int)
    (uuid : String) (trace : ApiTrace) (endpointPath : String)
    (df : DataField) :
    ∀ (classes : List String) (alerts : List Alert),
      ∃ s, foldSt (classStep (pureDb db) risk uuid trace endpointPath df)
          classes alerts = StRes.ok s
        ∧ bdFilter uuid s = bdFilter uuid alerts
  | [], alerts => ⟨alerts, by simp [foldSt], rfl⟩
  | dc :: classes, alerts => by
    obtain ⟨s1, h1, hb1⟩ :=
      classStep_bd db risk uuid trace endpointPath df alerts dc
    obtain ⟨s2, h2, hb2⟩ :=
      classesFold_bd db risk uuid trace endpointPath df classes s1
    exact ⟨s2, by simp [foldSt, h1, h2], by rw [hb2, hb1]⟩

/-- The basic-auth scan over a pure store with a matching header present:
the draft is appended exactly when the in-batch check finds nothing. -/
theorem processHeaderField_pure (db : List Alert) (risk : AlertType → Int)
    (uuid : String) (trace : ApiTrace) (alerts : List Alert)
    (hs : List Header) (hh : trace.requestHeaders = some hs)
    (hfind : (hs.find? isBasicAuthHeader).isSome)
    (hdb : findBy db uuid AlertType.BASIC_AUTHENTICATION_DETECTED
      basicAuthDescription = none) :
    processHeaderField (pureDb db) risk uuid trace alerts
      = StRes.ok
          (if existingDataFieldAlert (some alerts) uuid basicAuthDescription
            then alerts else alerts ++ [mkBasicAuthAlert risk uuid trace]) := by
  obtain ⟨h, hfind'⟩ := Option.isSome_iff_exists.mp hfind
  by_cases hb : existingDataFieldAlert (some alerts) uuid basicAuthDescription
  · simp [processHeaderField, hh, hfind', hb]
  · simp [processHeaderField, hh, hfind', hb, pureDb, hdb]

/-- One data-field step over a pure store, tracked on the basic-auth
entries: a REQUEST_HEADER field installs the single basic-auth draft when
none is present, and every other combination leaves the entries unchanged. -/
theorem processDataField_bd (db : List Alert) (risk : AlertType → Int)
    (uuid endpointPath : String) (trace : ApiTrace) (hs : List Header)
    (hh : trace.requestHeaders = some hs)
    (hfind : (hs.find? isBasicAuthHeader).isSome)
    (hdb : findBy db uuid AlertType.BASIC_AUTHENTICATION_DETECTED
      basicAuthDescription = none) :
    ∀ (df : DataField) (alerts : List Alert),
      ∃ s, processDataField (pureDb db) risk uuid endpointPath trace alerts df
          = StRes.ok s
        ∧ bdFilter uuid s
            = (if df.dataSection = DataSection.REQUEST_HEADER
                  ∧ bdFilter uuid alerts = []
               then [mkBasicAuthAlert risk uuid trace]
               else bdFilter uuid alerts) := by
  intro df alerts
  have classesPart : ∀ alerts1 : List Alert,
      ∃ s, (match df.dataClasses with
            | none => StRes.ok alerts1
            | some classes =>
              foldSt (classStep (pureDb db) risk uuid trace endpointPath df)
                classes alerts1) = StRes.ok s
        ∧ bdFilter uuid s = bdFilter uuid alerts1 := by
    intro alerts1
    rcases df.dataClasses with _ | classes
    · exact ⟨alerts1, rfl, rfl⟩
    · exact classesFold_bd db risk uuid trace endpointPath df classes alerts1
  by_cases hsec : df.dataSection = DataSection.REQUEST_HEADER
  · have hsecb : (df.dataSection == DataSection.REQUEST_HEADER) = true := by
      simp [hsec]
    have hH := processHeaderField_pure db risk uuid trace alerts hs hh hfind hdb
    by_cases hbd : bdFilter uuid alerts = []
    · have hedfa : existingDataFieldAlert (some alerts) uuid
          basicAuthDescription = false := (edfa_false_iff _ _).mpr hbd
      rw [hedfa] at hH
      simp only [Bool.false_eq_true, if_false] at hH
      obtain ⟨s, hcl, hbcl⟩ :=
        classesPart (alerts ++ [mkBasicAuthAlert risk uuid trace])
      refine ⟨s, ?_, ?_⟩
      · simp [processDataField, hsecb, hH, hcl]
      · rw [hbcl, if_pos ⟨hsec, hbd⟩]
        simp only [bdFilter] at hbd ⊢
        rw [List.filter_append, hbd]
        simp [mkBasicAuthAlert, basicAuthDescription]
    · have hedfa : existingDataFieldAlert (some alerts) uuid
          basicAuthDescription = true := by
        rcases he : existingDataFieldAlert (some alerts) uuid
            basicAuthDescription
        · exact absurd ((edfa_false_iff _ _).mp he) hbd
        · rfl
      rw [hedfa] at hH
      simp only [if_true] at hH
      obtain ⟨s, hcl, hbcl⟩ := classesPart alerts
      refine ⟨s, ?_, ?_⟩
      · simp [processDataField, hsecb, hH, hcl]
      · rw [hbcl]
        simp [hsec, hbd]
  · have hsecb : (df.dataSection == DataSection.REQUEST_HEADER) = false := by
      simp [hsec]
    obtain ⟨s, hcl, hbcl⟩ := classesPart alerts
    refine ⟨s, ?_, ?_⟩
    · simp [processDataField, hsecb, hcl]
    · rw [hbcl]
      simp [hsec]

/-- Once a basic-auth draft is in the batch, the remaining data fields leave
the basic-auth entries unchanged. -/
theorem dfFold_bd_preserve (db : List Alert) (risk : AlertType → Int)
    (uuid endpointPath : String) (trace : ApiTrace) (hs : List Header)
    (hh : trace.requestHeaders = some hs)
    (hfind : (hs.find? isBasicAuthHeader).isSome)
    (hdb : findBy db uuid AlertType.BASIC_AUTHENTICATION_DETECTED
      basicAuthDescription = none) :
    ∀ (dfs : List DataField) (alerts : List Alert),
      bdFilter uuid alerts ≠ [] →
      ∃ s, foldSt (processDataField (pureDb db) risk uuid endpointPath trace)
          dfs alerts = StRes.ok s
        ∧ bdFilter uuid s = bdFilter uuid alerts
  | [], alerts, _ => ⟨alerts, by simp [foldSt], rfl⟩
  | df :: dfs, alerts, hne => by
    obtain ⟨s1, h1, hb1⟩ := processDataField_bd db risk uuid endpointPath
      trace hs hh hfind hdb df alerts
    have hb1' : bdFilter uuid s1 = bdFilter uuid alerts := by
      rw [hb1, if_neg]
      intro hand
      exact hne hand.2
    obtain ⟨s2, h2, hb2⟩ := dfFold_bd_preserve db risk uuid endpointPath
      trace hs hh hfind hdb dfs s1 (by rw [hb1']; exact hne)
    exact ⟨s2, by simp [foldSt, h1, h2], by rw [hb2, hb1']⟩

/-- The data-field loop over a pure store: with a matching header, at least
one REQUEST_HEADER field, no persisted duplicate and no in-batch duplicate,
the final batch holds exactly one basic-auth entry — the draft itself. -/
theorem dfFold_bd_main (db : List Alert) (risk : AlertType → Int)
    (uuid endpointPath : String) (trace : ApiTrace) (hs : List Header)
    (hh : trace.requestHeaders = some hs)
    (hfind : (hs.find? isBasicAuthHeader).isSome)
    (hdb : findBy db uuid AlertType.BASIC_AUTHENTICATION_DETECTED
      basicAuthDescription = none) :
    ∀ (dfs : List DataField) (alerts : List Alert),
      bdFilter uuid alerts = [] →
      (∃ df ∈ dfs, df.dataSection = DataSection.REQUEST_HEADER) →
      ∃ s, foldSt (processDataField (pureDb db) risk uuid endpointPath trace)
          dfs alerts = StRes.ok s
        ∧ bdFilter uuid s = [mkBasicAuthAlert risk uuid trace]
  | [], _, _, hex => absurd hex (by simp)
  | df :: dfs, alerts, hbd, hex => by
    obtain ⟨s1, h1, hb1⟩ := processDataField_bd db risk uuid endpointPath
      trace hs hh hfind hdb df alerts
    by_cases hsec : df.dataSection = DataSection.REQUEST_HEADER
    · have hb1' : bdFilter uuid s1 = [mkBasicAuthAlert risk uuid trace] := by
        rw [hb1, if_pos ⟨hsec, hbd⟩]
      obtain ⟨s2, h2, hb2⟩ := dfFold_bd_preserve db risk uuid endpointPath
        trace hs hh hfind hdb dfs s1 (by rw [hb1']; simp)
      exact ⟨s2, by simp [foldSt, h1, h2], by rw [hb2, hb1']⟩
    · have hb1' : bdFilter uuid s1 = [] := by
        rw [hb1, if_neg (fun hand => hsec hand.1)]
        exact hbd
      have hex' : ∃ df' ∈ dfs,
          df'.dataSection = DataSection.REQUEST_HEADER := by
        rcases hex with ⟨df', hmem, hsec'⟩
        rcases List.mem_cons.mp hmem with rfl | hmem'
        · exact absurd hsec' hsec
        · exact ⟨df', hmem', hsec'⟩
      obtain ⟨s2, h2, hb2⟩ := dfFold_bd_main db risk uuid endpointPath trace
        hs hh hfind hdb dfs s1 hb1' hex'
      exact ⟨s2, by simp [foldSt, h1, h2], hb2⟩

/-- C7: whenever the data fields include at least one REQUEST_HEADER field,
the trace's request headers contain a basic-auth header, and neither the
persisted store nor the starting batch holds a duplicate, the resulting
batch contains exactly one `(uuid, basicAuthDescription)` entry — the
basic-auth draft, whose type is BASIC_AUTHENTICATION_DETECTED — regardless
of how many matching headers or REQUEST_HEADER fields the call carries. -/
theorem C7_exactly_one_basic_auth_draft :
    ∀ (db : List Alert) (risk : AlertType → Int) (uuid endpointPath : String)
      (trace : ApiTrace) (dfs : List DataField) (init : List Alert)
      (hs : List Header),
      trace.requestHeaders = some hs →
      hs.any isBasicAuthHeader = true →
      (∃ df ∈ dfs, df.dataSection = DataSection.REQUEST_HEADER) →
      findBy db uuid AlertType.BASIC_AUTHENTICATION_DETECTED
        basicAuthDescription = none →
      existingDataFieldAlert (some init) uuid basicAuthDescription = false →
      (createDataFieldAlerts (pureDb db) risk (some dfs) uuid endpointPath
          trace (some init)).filter
          (fun a => a.apiEndpointUuid == uuid
            && a.description == basicAuthDescription)
        = [mkBasicAuthAlert risk uuid trace]
      ∧ (mkBasicAuthAlert risk uuid trace).type
          = AlertType.BASIC_AUTHENTICATION_DETECTED := by
  intro db risk uuid endpointPath trace dfs init hs hh hany hex hdb hedfa
  have hfind : (hs.find? isBasicAuthHeader).isSome := by
    rw [List.find?_isSome]
    simpa using List.any_eq_true.mp hany
  have hbd0 : bdFilter uuid init = [] := (edfa_false_iff _ _).mp hedfa
  obtain ⟨s, hfold, hb⟩ := dfFold_bd_main db risk uuid endpointPath trace hs
    hh hfind hdb dfs init hbd0 hex
  have houter : createDataFieldAlerts (pureDb db) risk (some dfs) uuid
      endpointPath trace (some init) = s := by
    simp [createDataFieldAlerts, dataFieldInner, hfold]
  rw [houter]
  exact ⟨hb, rfl⟩

/-- C7 witness: two matching Authorization headers and two REQUEST_HEADER
fields in one call still produce exactly one basic-auth draft. -/
theorem C7_exactly_one_basic_auth_witness :
    (createDataFieldAlerts (pureDb []) (fun _ => 0)
        (some [⟨DataSection.REQUEST_HEADER, "auth", none⟩,
               ⟨DataSection.REQUEST_HEADER, "auth2", none⟩]) "u" "/p"
        ⟨"h", "/p", some [⟨"Authorization", "Basic xyz"⟩,
                          ⟨"Authorization", "Basic abc"⟩]⟩
        (some [])).filter
        (fun a => a.apiEndpointUuid == "u"
          && a.description == basicAuthDescription)
      = [mkBasicAuthAlert (fun _ => 0) "u"
          ⟨"h", "/p", some [⟨"Authorization", "Basic xyz"⟩,
                            ⟨"Authorization", "Basic abc"⟩]⟩]
    ∧ (mkBasicAuthAlert (fun _ => 0) "u"
        ⟨"h", "/p", some [⟨"Authorization", "Basic xyz"⟩,
                          ⟨"Authorization", "Basic abc"⟩]⟩).type
        = AlertType.BASIC_AUTHENTICATION_DETECTED :=
  C7_exactly_one_basic_auth_draft [] (fun _ => 0) "u" "/p"
    ⟨"h", "/p", some [⟨"Authorization", "Basic xyz"⟩,
                      ⟨"Authorization", "Basic abc"⟩]⟩
    [⟨DataSection.REQUEST_HEADER, "auth", none⟩,
     ⟨DataSection.REQUEST_HEADER, "auth2", none⟩]
    []
    [⟨"Authorization", "Basic xyz"⟩, ⟨"Authorization", "Basic abc"⟩]
    rfl (by decide) (by decide) rfl rfl

end MetloAlert
